import Mathlib

/-!
Verification of the crowdfunding campaign engine of the `projects` Django app
(models.py, api_views.py, views.py, forms.py), as a shallow embedding.

Conventions of the embedding:
* Database rows become Lean structures; a per-project slice of the database
  (the project row plus the donation / rating / comment / report tables)
  becomes the state type `St`.
* Django's `timezone.now()` is passed explicitly as an integer timestamp.
* Python floats (donation amounts parsed with `float`, `Avg` aggregates,
  the `percent_funded` computation) are modelled as exact rationals `Rat`.
* Each HTTP action becomes a function `inputs → St → Option Error × St`:
  `(none, s')` models a 2xx response with the mutated database, and
  `(some e, s)` models an error response, the database untouched.
-/

namespace Crowdfund

/-- Row of the `Project` model (models.py lines 27..87): scalar columns that the
examined operations read or write.  `owner` is the owner's user id;
`average_rating` / `rating_count` are the cached aggregate columns. -/
structure Project where
  id : Nat
  title : String
  details : String
  total_target : Nat
  owner : Nat
  start_time : Int
  end_time : Int
  status : String
  is_featured : Bool
  average_rating : Rat
  rating_count : Nat
deriving Repr, DecidableEq

/-- Row of the `Donation` model (models.py lines 98..109): `user` is nullable
(`on_delete=SET_NULL`), `amount` is the stored amount (the API view stores the
`float`-parsed request value, modelled as `Rat`). -/
structure Donation where
  user : Option Nat
  project : Nat
  amount : Rat
deriving Repr, DecidableEq

/-- Row of the `Rating` model (models.py lines 190..198): one value per
(project, user), enforced by `unique_together`. -/
structure Rating where
  project : Nat
  user : Nat
  value : Int
deriving Repr, DecidableEq

/-- Row of the `Comment` model (models.py lines 112..132), reduced to the
columns the report-comment action consults. -/
structure Comment where
  id : Nat
  project : Nat
  user : Nat
  content : String
deriving Repr, DecidableEq

/-- Row of the concrete `ProjectReport` model (models.py lines 165..172),
with the columns inherited from the abstract `Report` base. -/
structure ProjectReport where
  project : Nat
  reporter : Nat
  report_type : String
  reason : String
  status : String
deriving Repr, DecidableEq

/-- Row of the concrete `CommentReport` model (models.py lines 177..184). -/
structure CommentReport where
  comment : Nat
  reporter : Nat
  report_type : String
  reason : String
  status : String
deriving Repr, DecidableEq

/-- The slice of the database an operation on one project touches: the project
row and the related tables.  The lists may also hold rows of other projects;
every aggregate filters by `project` id, like the Django related managers. -/
structure St where
  project : Project
  donations : List Donation
  ratings : List Rating
  comments : List Comment
  projectReports : List ProjectReport
  commentReports : List CommentReport
deriving Repr, DecidableEq

/-- `Project.total_donations_collected` (models.py lines 64..68):
`self.donations.aggregate(total=Sum('amount'))`, with `None → 0` for an empty
set (the sum of the empty list is already `0`). -/
def total_donations_collected (p : Project) (ds : List Donation) : Rat :=
  ((ds.filter (fun d => d.project == p.id)).map (fun d => d.amount)).sum

/-- `Project.percent_funded` (models.py lines 70..75):
`min(100, (total / target) * 100)` when `total_target > 0`, else `0`. -/
def percent_funded (p : Project) (ds : List Donation) : Rat :=
  if 0 < p.total_target then
    min 100 ((total_donations_collected p ds / (p.total_target : Rat)) * 100)
  else 0

/-- `Project.is_active_campaign` (models.py lines 77..80):
`self.status == 'active' and self.end_time > timezone.now()`. -/
def is_active_campaign (p : Project) (now : Int) : Bool :=
  p.status == "active" && decide (now < p.end_time)

/-- The list `Avg('value')` / `Count('value')` aggregate over: the `value`
column of the ratings of this project (models.py line 84). -/
def ratingValues (p : Project) (rs : List Rating) : List Int :=
  (rs.filter (fun r => r.project == p.id)).map (fun r => r.value)

/-- The `Avg('value')` aggregate with the `None → 0.0` guard of
models.py line 85. -/
def avg_rating_of (p : Project) (rs : List Rating) : Rat :=
  if (ratingValues p rs).length == 0 then 0
  else ((ratingValues p rs).sum : Rat) / ((ratingValues p rs).length : Rat)

/-- The `Count('value')` aggregate of models.py line 86. -/
def rating_count_of (p : Project) (rs : List Rating) : Nat :=
  (ratingValues p rs).length

/-- `Project.update_rating_summary` (models.py lines 82..87): recompute both
cached columns from the rating rows and persist them
(`save(update_fields=['average_rating', 'rating_count'])`). -/
def update_rating_summary (p : Project) (rs : List Rating) : Project :=
  { p with average_rating := avg_rating_of p rs, rating_count := rating_count_of p rs }

/-- Error responses of `ProjectViewSet.donate` (api_views.py lines 186..221). -/
inductive DonateError
  | amountRequired
  | invalidAmount
  | campaignNotActive
deriving Repr, DecidableEq

/-- `ProjectViewSet.donate` (api_views.py lines 186..221).  The request amount
is the `float`-parsed payload (`none` models an absent or unparsable value).
The check order of the source: `if not amount` (Python falsiness, so a numeric
`0` payload hits it), then `amount <= 0`, then the `is_active_campaign` guard,
then `Donation.objects.create`. -/
def api_donate (uid : Nat) (amount : Option Rat) (now : Int) (s : St) :
    Option DonateError × St :=
  match amount with
  | none => (some .amountRequired, s)
  | some a =>
    if a = 0 then (some .amountRequired, s)
    else if a ≤ 0 then (some .invalidAmount, s)
    else if !(is_active_campaign s.project now) then (some .campaignNotActive, s)
    else (none, { s with donations := s.donations ++ [⟨some uid, s.project.id, a⟩] })

/-- The one failure mode of the web donation path: `form.is_valid()` false
(views.py line 203). -/
inductive FormError
  | invalidForm
deriving Repr, DecidableEq

/-- `make_donation` (views.py lines 189..204) with `DonationForm`
(forms.py lines 35..41).  The form's only server-side validation is the model
field `amount = PositiveIntegerField`, whose form field is an integer with
minimum value 0 (the widget attribute `min: 10` is client-side only).  A valid
form saves the donation directly: the view applies no `is_active_campaign`
guard and no `amount > 0` check. -/
def make_donation (uid : Nat) (amount : Option Int) (s : St) :
    Option FormError × St :=
  match amount with
  | none => (some .invalidForm, s)
  | some n =>
    if n < 0 then (some .invalidForm, s)
    else (none, { s with donations := s.donations ++ [⟨some uid, s.project.id, (n : Rat)⟩] })

/-- Error responses of `ProjectViewSet.cancel` (api_views.py lines 254..287). -/
inductive CancelError
  | notOwner
  | notActive
  | alreadyFunded25Plus
deriving Repr, DecidableEq

/-- `ProjectViewSet.cancel` (api_views.py lines 254..287): owner check, then
`status != 'active'` check, then `percent_funded >= 25` check; on success
`status = 'canceled'` and `save(update_fields=['status'])`. -/
def api_cancel (uid : Nat) (s : St) : Option CancelError × St :=
  if s.project.owner ≠ uid then (some .notOwner, s)
  else if s.project.status ≠ "active" then (some .notActive, s)
  else if 25 ≤ percent_funded s.project s.donations then (some .alreadyFunded25Plus, s)
  else (none, { s with project := { s.project with status := "canceled" } })

/-- Error responses of `ProjectViewSet.rate` (api_views.py lines 224..251). -/
inductive RateError
  | valueRequired
  | invalidValue
deriving Repr, DecidableEq

/-- `Rating.objects.update_or_create(project=.., user=.., defaults={'value': v})`
(api_views.py lines 241..245): overwrite the value of the existing row for the
pair, or append a fresh row. -/
def update_or_create_rating (pid uid : Nat) (v : Int) (rs : List Rating) :
    List Rating :=
  if rs.any (fun r => r.project == pid && r.user == uid) then
    rs.map (fun r => if r.project == pid && r.user == uid then { r with value := v } else r)
  else rs ++ [⟨pid, uid, v⟩]

/-- `ProjectViewSet.rate` (api_views.py lines 224..251): `if not rating_value`
(so a `0` payload reads as absent), the `1 <= value <= 5` range check, the
upsert, then `project.update_rating_summary()`. -/
def api_rate (uid : Nat) (value : Option Int) (s : St) : Option RateError × St :=
  match value with
  | none => (some .valueRequired, s)
  | some v =>
    if v = 0 then (some .valueRequired, s)
    else if ¬ (1 ≤ v ∧ v ≤ 5) then (some .invalidValue, s)
    else
      let rs := update_or_create_rating s.project.id uid v s.ratings
      (none, { s with ratings := rs, project := update_rating_summary s.project rs })

/-- Deletion of a user's rating row followed by the `post_delete` receiver
`update_project_rating_summary` (models.py lines 205..215), which reruns
`update_rating_summary` on the project. -/
def delete_rating (uid : Nat) (s : St) : St :=
  let rs := s.ratings.filter (fun r => !(r.project == s.project.id && r.user == uid))
  { s with ratings := rs, project := update_rating_summary s.project rs }

/-- Error response of `ProjectViewSet.report_project`
(api_views.py lines 312..330). -/
inductive ReportError
  | alreadyReported
deriving Repr, DecidableEq

/-- `ProjectViewSet.report_project` (api_views.py lines 312..330): the
duplicate check `ProjectReport.objects.filter(project=.., reporter=..).exists()`
is from the source.  Modelled from the spec: `ProjectReportSerializer` is
imported by api_views.py but missing from serializers.py; its save is modelled
as inserting one row for this project with `reporter` set to the caller, the
`status` column taking the model default `'pending'` (models.py lines 153..157). -/
def report_project (uid : Nat) (rtype reason : String) (s : St) :
    Option ReportError × St :=
  if s.projectReports.any (fun r => r.project == s.project.id && r.reporter == uid) then
    (some .alreadyReported, s)
  else
    (none, { s with projectReports :=
        s.projectReports ++ [⟨s.project.id, uid, rtype, reason, "pending"⟩] })

/-- Error responses of `ProjectViewSet.report_comment`
(api_views.py lines 334..369). -/
inductive CommentReportError
  | commentIdRequired
  | commentNotFound
  | alreadyReported
deriving Repr, DecidableEq

/-- `ProjectViewSet.report_comment` (api_views.py lines 334..369): the
`if not comment_id` check (a `0` id reads as absent), the lookup
`Comment.objects.get(id=.., project=project)`, then the duplicate check on
`(comment, reporter)`.  Modelled from the spec: `CommentReportSerializer` is
imported by api_views.py but missing from serializers.py; its save is modelled
as inserting one row for this comment with `reporter` set to the caller and the
model default status `'pending'`. -/
def report_comment (uid : Nat) (cid : Option Nat) (rtype reason : String) (s : St) :
    Option CommentReportError × St :=
  match cid with
  | none => (some .commentIdRequired, s)
  | some c =>
    if c = 0 then (some .commentIdRequired, s)
    else if !(s.comments.any (fun cm => cm.id == c && cm.project == s.project.id)) then
      (some .commentNotFound, s)
    else if s.commentReports.any (fun r => r.comment == c && r.reporter == uid) then
      (some .alreadyReported, s)
    else
      (none, { s with commentReports :=
          s.commentReports ++ [⟨c, uid, rtype, reason, "pending"⟩] })

/-- The invariant of claim C5: the cached columns of the project row agree
with the aggregates over the current rating rows. -/
def rating_summary_consistent (p : Project) (rs : List Rating) : Prop :=
  p.average_rating = avg_rating_of p rs ∧ p.rating_count = rating_count_of p rs

/-- At most one rating row per (project, user) pair — the `unique_together`
constraint of the `Rating` model. -/
def at_most_one_per_pair (rs : List Rating) : Prop :=
  ∀ pid uid, (rs.filter (fun r => r.project == pid && r.user == uid)).length ≤ 1

/-- A sample project: id 1, owned by user 1, target 1000 EGP, campaign window
[0, 100], status still `'active'`. -/
def projA : Project :=
  { id := 1, title := "Trees for the city", details := "plant a thousand trees",
    total_target := 1000, owner := 1, start_time := 0, end_time := 100,
    status := "active", is_featured := false, average_rating := 0, rating_count := 0 }

/-- A sample database slice around `projA` with all related tables empty. -/
def stA : St :=
  { project := projA, donations := [], ratings := [], comments := [],
    projectReports := [], commentReports := [] }

/-- `stA` after its project has been canceled. -/
def stAc : St := { stA with project := { stA.project with status := "canceled" } }

/-- `stA` after user 7 submitted the rating value 3. -/
def st6 : St := { stA with ratings := [⟨1, 7, 3⟩] }

/-- The total of an empty donation table is zero. -/
theorem total_donations_nil (p : Project) : total_donations_collected p [] = 0 := rfl

/-- Donation totals are nonnegative whenever every stored amount is. -/
theorem total_donations_nonneg (p : Project) (ds : List Donation)
    (h : ∀ d ∈ ds, 0 ≤ d.amount) : 0 ≤ total_donations_collected p ds := by
  apply List.sum_nonneg
  intro x hx
  simp only [total_donations_collected, List.mem_map, List.mem_filter] at hx
  obtain ⟨d, ⟨hd, _⟩, rfl⟩ := hx
  exact h d hd

/-- Claim C3, as the code has it: a campaign is active exactly when the status
column reads `'active'` and the current time is strictly before `end_time`
(models.py line 80 tests `end_time > timezone.now()`). -/
theorem c3_is_active_campaign_iff (p : Project) (now : Int) :
    is_active_campaign p now = true ↔ (p.status = "active" ∧ now < p.end_time) := by
  simp [is_active_campaign]

/-- Witness for C3 at a concrete input: `projA` one tick before its deadline. -/
theorem c3_is_active_campaign_iff_witness : is_active_campaign projA 99 = true :=
  (c3_is_active_campaign_iff projA 99).mpr ⟨rfl, by decide⟩

/-- Counterexample to claim C3 as stated: at the very instant the current time
equals `end_time`, the code reports the campaign as NOT active, while the claim
(`current time ≤ end_time`) says it still is.  Input: `projA` with its
`end_time` lowered to 0, read at time 0. -/
theorem c3_counterexample :
    ¬ (is_active_campaign { projA with end_time := 0 } 0 = true ↔
        ({ projA with end_time := 0 } : Project).status = "active"
          ∧ (0 : Int) ≤ ({ projA with end_time := 0 } : Project).end_time) := by
  simp [is_active_campaign, projA]

/-- Claim C10: refreshing the summary of a project with no rating rows stores
average 0.0 and count 0 (the `None → 0.0` guard of models.py lines 85..86). -/
theorem c10_unrated_summary (p : Project) (rs : List Rating)
    (h : rs.filter (fun r => r.project == p.id) = []) :
    (update_rating_summary p rs).average_rating = 0
    ∧ (update_rating_summary p rs).rating_count = 0 := by
  simp [update_rating_summary, avg_rating_of, rating_count_of, ratingValues, h]

/-- Witness for C10: `projA` against an empty rating table. -/
theorem c10_unrated_summary_witness :
    (update_rating_summary projA []).average_rating = 0
    ∧ (update_rating_summary projA []).rating_count = 0 :=
  c10_unrated_summary projA [] rfl

/-- Claim C4: `percent_funded` matches the spec formula
(`min(100, total/target*100)`, and 0 for a zero target), stays inside
`[0, 100]` for nonnegative stored amounts, and is monotone in the donation
total. -/
theorem c4_percent_funded_spec (p : Project) (ds ds' : List Donation)
    (h : ∀ d ∈ ds, 0 ≤ d.amount) :
    (0 < p.total_target →
      percent_funded p ds
        = min 100 (total_donations_collected p ds / (p.total_target : Rat) * 100))
    ∧ (p.total_target = 0 → percent_funded p ds = 0)
    ∧ 0 ≤ percent_funded p ds ∧ percent_funded p ds ≤ 100
    ∧ (total_donations_collected p ds ≤ total_donations_collected p ds' →
        percent_funded p ds ≤ percent_funded p ds') := by
  have htot := total_donations_nonneg p ds h
  refine ⟨?_, ?_, ?_, ?_, ?_⟩
  · intro hT; simp [percent_funded, hT]
  · intro hT; simp [percent_funded, hT]
  · by_cases hT : 0 < p.total_target
    · have hcast : (0 : Rat) < (p.total_target : Rat) := by exact_mod_cast hT
      have : (0 : Rat) ≤ total_donations_collected p ds / (p.total_target : Rat) * 100 := by
        positivity
      simp only [percent_funded, if_pos hT, le_min_iff]
      exact ⟨by norm_num, this⟩
    · simp [percent_funded, hT]
  · by_cases hT : 0 < p.total_target
    · simp only [percent_funded, if_pos hT]
      exact min_le_left _ _
    · simp [percent_funded, hT]
  · intro hle
    by_cases hT : 0 < p.total_target
    · have hcast : (0 : Rat) < (p.total_target : Rat) := by exact_mod_cast hT
      simp only [percent_funded, if_pos hT]
      refine min_le_min le_rfl (mul_le_mul_of_nonneg_right ?_ (by norm_num))
      exact (div_le_div_iff_of_pos_right hcast).mpr hle
    · simp [percent_funded, hT]

/-- Witness for C4: `projA` (target 1000) with one stored donation of 240,
evaluating the bounds conjuncts. -/
theorem c4_percent_funded_spec_witness :
    0 ≤ percent_funded projA [⟨some 2, 1, 240⟩]
    ∧ percent_funded projA [⟨some 2, 1, 240⟩] ≤ 100 := by
  have h := c4_percent_funded_spec projA [⟨some 2, 1, 240⟩] [⟨some 2, 1, 240⟩] (by
    intro d hd
    rcases List.mem_singleton.mp hd with rfl
    norm_num)
  exact ⟨h.2.2.1, h.2.2.2.1⟩

/-- Claim C2 (and the success shape used by C9): the cancel action succeeds
exactly when the caller owns the project, the status column reads `'active'`,
and funding is below 25%; on success the status becomes `'canceled'`; each
failing guard is reported by its own error, the state untouched. -/
theorem c2_cancel_spec (uid : Nat) (s : St) :
    ((api_cancel uid s).1 = none ↔
      (s.project.owner = uid ∧ s.project.status = "active"
        ∧ percent_funded s.project s.donations < 25))
    ∧ ((api_cancel uid s).1 = none → (api_cancel uid s).2.project.status = "canceled")
    ∧ (s.project.owner ≠ uid → api_cancel uid s = (some .notOwner, s))
    ∧ (s.project.owner = uid → s.project.status ≠ "active" →
        api_cancel uid s = (some .notActive, s))
    ∧ (s.project.owner = uid → s.project.status = "active" →
        25 ≤ percent_funded s.project s.donations →
        api_cancel uid s = (some .alreadyFunded25Plus, s)) := by
  unfold api_cancel
  split_ifs with h1 h2 h3 <;> simp_all [not_le, le_of_lt]

/-- Witness for C2: the owner cancels `projA` at 24% funding (240 of 1000) and
the status becomes `'canceled'`; at 26% funding (260 of 1000) the cancel fails
with the 25%-guard error and the state is unchanged. -/
theorem c2_cancel_spec_witness :
    (api_cancel 1 { stA with donations := [⟨some 2, 1, 240⟩] }).1 = none
    ∧ (api_cancel 1 { stA with donations := [⟨some 2, 1, 240⟩] }).2.project.status
        = "canceled"
    ∧ api_cancel 1 { stA with donations := [⟨some 2, 1, 260⟩] }
        = (some .alreadyFunded25Plus, { stA with donations := [⟨some 2, 1, 260⟩] }) := by
  have h24 := c2_cancel_spec 1 { stA with donations := [⟨some 2, 1, 240⟩] }
  have h26 := c2_cancel_spec 1 { stA with donations := [⟨some 2, 1, 260⟩] }
  have e1 : (api_cancel 1 { stA with donations := [⟨some 2, 1, 240⟩] }).1 = none :=
    h24.1.mpr ⟨rfl, rfl, by
      norm_num [percent_funded, total_donations_collected, stA, projA, min_def]⟩
  refine ⟨e1, h24.2.1 e1, h26.2.2.2.2 rfl rfl ?_⟩
  norm_num [percent_funded, total_donations_collected, stA, projA, min_def]

/-- Claim C9: a successful cancel only rewrites the status column; every other
project column and the donation, rating and comment tables are untouched. -/
theorem c9_cancel_frame (uid : Nat) (s s' : St)
    (h : api_cancel uid s = (none, s')) :
    s'.project.id = s.project.id ∧ s'.project.title = s.project.title
    ∧ s'.project.details = s.project.details
    ∧ s'.project.total_target = s.project.total_target
    ∧ s'.project.owner = s.project.owner
    ∧ s'.project.start_time = s.project.start_time
    ∧ s'.project.end_time = s.project.end_time
    ∧ s'.project.is_featured = s.project.is_featured
    ∧ s'.project.average_rating = s.project.average_rating
    ∧ s'.project.rating_count = s.project.rating_count
    ∧ s'.project.status = "canceled"
    ∧ s'.donations = s.donations ∧ s'.ratings = s.ratings
    ∧ s'.comments = s.comments := by
  unfold api_cancel at h
  split_ifs at h with h1 h2 h3
  · exact absurd (congrArg Prod.fst h) (by simp)
  · exact absurd (congrArg Prod.fst h) (by simp)
  · exact absurd (congrArg Prod.fst h) (by simp)
  · have hs : s' = { s with project := { s.project with status := "canceled" } } :=
      ((Prod.mk.injEq _ _ _ _).mp h).2.symm
    subst hs
    simp

/-- Witness for C9: the successful cancel of `stA` by its owner. -/
theorem c9_cancel_frame_witness :
    stAc.donations = stA.donations
    ∧ stAc.project.average_rating = stA.project.average_rating := by
  have h0 : api_cancel 1 stA = (none, stAc) := by
    norm_num [api_cancel, stAc, percent_funded, total_donations_collected, stA, projA,
      min_def]
  have h := c9_cancel_frame 1 stA stAc h0
  exact ⟨h.2.2.2.2.2.2.2.2.2.2.2.1, h.2.2.2.2.2.2.2.2.1⟩

/-- Claim C1, as amended: in the API donate action an inactive campaign is
always rejected with the state unchanged, a valid amount on an inactive
campaign is rejected with exactly the campaign-not-active error, and a
donation row is appended only when the campaign is active (with a positive
amount supplied).  The web view `make_donation` applies no such guard — see
the counterexample. -/
theorem c1_donate_guard (uid : Nat) (a : Option Rat) (x : Rat) (now : Int) (s : St) :
    (is_active_campaign s.project now = false →
      (api_donate uid a now s).1 ≠ none ∧ (api_donate uid a now s).2 = s)
    ∧ (0 < x → is_active_campaign s.project now = false →
        api_donate uid (some x) now s = (some .campaignNotActive, s))
    ∧ ((api_donate uid a now s).1 = none →
        is_active_campaign s.project now = true
        ∧ ∃ y, a = some y ∧ 0 < y
          ∧ (api_donate uid a now s).2
              = { s with donations := s.donations ++ [⟨some uid, s.project.id, y⟩] }) := by
  refine ⟨?_, ?_, ?_⟩
  · intro hin
    match a with
    | none => exact ⟨by simp [api_donate], rfl⟩
    | some y =>
      by_cases hy0 : y = 0
      · simp [api_donate, hy0]
      · by_cases hyle : y ≤ 0
        · simp [api_donate, hy0, hyle]
        · simp [api_donate, hy0, hyle, hin]
  · intro hx hin
    have hy0 : ¬ x = 0 := by positivity
    have hyle : ¬ x ≤ 0 := not_le.mpr hx
    simp [api_donate, hy0, hyle, hin]
  · intro hok
    match a with
    | none => simp [api_donate] at hok
    | some y =>
      simp only [api_donate] at hok ⊢
      by_cases hy0 : y = 0
      · simp [hy0] at hok
      · by_cases hyle : y ≤ 0
        · simp [hy0, hyle] at hok
        · by_cases hact : is_active_campaign s.project now
          · refine ⟨hact, y, rfl, lt_of_not_le hyle, ?_⟩
            simp [hy0, hyle, hact]
          · simp [hy0, hyle, hact] at hok

/-- Witness for C1: a positive donation to `projA` at time 200 — past the
deadline 100, the status column still reading `'active'` — is rejected with
the campaign-not-active error and the state is unchanged. -/
theorem c1_donate_guard_witness :
    api_donate 2 (some 50) 200 stA = (some .campaignNotActive, stA) :=
  (c1_donate_guard 2 (some 50) 50 200 stA).2.1 (by norm_num) (by rfl)

/-- Counterexample to claim C1 as stated: the web donation path
(`make_donation`, views.py lines 189..204) creates a donation row for `projA`
even though `is_active_campaign` is false at time 200 — the claim says every
donation attempt on an inactive campaign is rejected with no row created. -/
theorem c1_counterexample :
    is_active_campaign stA.project 200 = false
    ∧ (make_donation 2 (some 50) stA).1 = none
    ∧ (make_donation 2 (some 50) stA).2.donations = [⟨some 2, 1, 50⟩] :=
  ⟨rfl, rfl, rfl⟩

/-- Claim C7, as amended: the API donate action rejects every nonpositive
amount with the state unchanged; the web form path rejects a negative amount,
but accepts amount 0 and stores a zero-amount donation row — see the
counterexample. -/
theorem c7_amount_validation (uid : Nat) (now : Int) (x : Rat) (n : Int) (s : St) :
    (x ≤ 0 →
      (api_donate uid (some x) now s).1 ≠ none ∧ (api_donate uid (some x) now s).2 = s)
    ∧ (n < 0 → make_donation uid (some n) s = (some .invalidForm, s))
    ∧ (0 ≤ n → make_donation uid (some n) s
        = (none, { s with donations :=
            s.donations ++ [⟨some uid, s.project.id, (n : Rat)⟩] })) := by
  refine ⟨?_, ?_, ?_⟩
  · intro hx
    by_cases hy0 : x = 0
    · simp [api_donate, hy0]
    · simp [api_donate, hy0, hx]
  · intro hn
    simp [make_donation, hn]
  · intro hn
    simp [make_donation, not_lt.mpr hn]

/-- Witness for C7: a negative amount is rejected on both paths. -/
theorem c7_amount_validation_witness :
    (api_donate 2 (some (-5)) 50 stA).1 ≠ none ∧ (api_donate 2 (some (-5)) 50 stA).2 = stA :=
  (c7_amount_validation 2 50 (-5) (-5) stA).1 (by norm_num)

/-- Counterexample to claim C7 as stated: `make_donation` with amount 0 —
valid for the form, whose only server-side bound is the `PositiveIntegerField`
minimum 0 — creates a donation row of amount 0 instead of failing. -/
theorem c7_counterexample :
    (make_donation 2 (some 0) stA).1 = none
    ∧ (make_donation 2 (some 0) stA).2.donations = [⟨some 2, 1, 0⟩] :=
  ⟨rfl, rfl⟩

/-- Writing the freshly computed aggregates onto the project row makes the
cached columns agree with those aggregates: the aggregates read only the
project id, which `update_rating_summary` never changes. -/
theorem summary_consistent_update (p : Project) (rs : List Rating) :
    rating_summary_consistent (update_rating_summary p rs) rs :=
  ⟨rfl, rfl⟩

/-- The donate action never touches the project row or the rating table. -/
theorem api_donate_project_ratings (uid : Nat) (a : Option Rat) (now : Int) (s : St) :
    (api_donate uid a now s).2.project = s.project
    ∧ (api_donate uid a now s).2.ratings = s.ratings := by
  match a with
  | none => exact ⟨rfl, rfl⟩
  | some y =>
    simp only [api_donate]
    split_ifs <;> exact ⟨rfl, rfl⟩

/-- The report-project action never touches the project row or the rating
table. -/
theorem report_project_project_ratings (uid : Nat) (t r : String) (s : St) :
    (report_project uid t r s).2.project = s.project
    ∧ (report_project uid t r s).2.ratings = s.ratings := by
  unfold report_project
  split_ifs <;> exact ⟨rfl, rfl⟩

/-- The report-comment action never touches the project row or the rating
table. -/
theorem report_comment_project_ratings (uid : Nat) (cid : Option Nat) (t r : String)
    (s : St) :
    (report_comment uid cid t r s).2.project = s.project
    ∧ (report_comment uid cid t r s).2.ratings = s.ratings := by
  match cid with
  | none => exact ⟨rfl, rfl⟩
  | some c =>
    simp only [report_comment]
    split_ifs <;> exact ⟨rfl, rfl⟩

/-- Claim C5: every rating create / update (through the rate action) and every
rating delete (through the `post_delete` receiver) leaves the cached columns
equal to the aggregates over the current rating rows, and every other core
mutating operation (cancel, donate, report-project, report-comment) preserves
that agreement. -/
theorem c5_summary_invariant (uid : Nat) (v : Option Int) (a : Option Rat) (now : Int)
    (t rsn : String) (cid : Option Nat) (s : St) :
    ((api_rate uid v s).1 = none →
      rating_summary_consistent (api_rate uid v s).2.project (api_rate uid v s).2.ratings)
    ∧ rating_summary_consistent (delete_rating uid s).project (delete_rating uid s).ratings
    ∧ (rating_summary_consistent s.project s.ratings →
        rating_summary_consistent (api_cancel uid s).2.project (api_cancel uid s).2.ratings)
    ∧ (rating_summary_consistent s.project s.ratings →
        rating_summary_consistent (api_donate uid a now s).2.project
          (api_donate uid a now s).2.ratings)
    ∧ (rating_summary_consistent s.project s.ratings →
        rating_summary_consistent (report_project uid t rsn s).2.project
          (report_project uid t rsn s).2.ratings)
    ∧ (rating_summary_consistent s.project s.ratings →
        rating_summary_consistent (report_comment uid cid t rsn s).2.project
          (report_comment uid cid t rsn s).2.ratings) := by
  refine ⟨?_, ?_, ?_, ?_, ?_, ?_⟩
  · intro hok
    match v with
    | none => simp [api_rate] at hok
    | some w =>
      simp only [api_rate] at hok ⊢
      by_cases hw0 : w = 0
      · simp [hw0] at hok
      · by_cases hrange : 1 ≤ w ∧ w ≤ 5
        · simpa [hw0, hrange] using
            summary_consistent_update s.project
              (update_or_create_rating s.project.id uid w s.ratings)
        · simp [hw0, hrange] at hok
  · exact summary_consistent_update s.project
      (s.ratings.filter (fun r => !(r.project == s.project.id && r.user == uid)))
  · intro hcons
    unfold api_cancel
    split_ifs
    · exact hcons
    · exact hcons
    · exact hcons
    · exact hcons
  · intro hcons
    rw [(api_donate_project_ratings uid a now s).1,
      (api_donate_project_ratings uid a now s).2]
    exact hcons
  · intro hcons
    rw [(report_project_project_ratings uid t rsn s).1,
      (report_project_project_ratings uid t rsn s).2]
    exact hcons
  · intro hcons
    rw [(report_comment_project_ratings uid cid t rsn s).1,
      (report_comment_project_ratings uid cid t rsn s).2]
    exact hcons

/-- Witness for C5: user 7 rates `projA` with value 4; the refreshed cached
columns agree with the aggregates. -/
theorem c5_summary_invariant_witness :
    rating_summary_consistent (api_rate 7 (some 4) stA).2.project
      (api_rate 7 (some 4) stA).2.ratings :=
  (c5_summary_invariant 7 (some 4) none 0 "spam" "bad" none stA).1 rfl

/-- Filtering commutes with a map that does not change the filtered bit. -/
theorem filter_map_pred_eq (q : Rating → Bool) (f : Rating → Rating)
    (hq : ∀ x, q (f x) = q x) (rs : List Rating) :
    (rs.map f).filter q = (rs.filter q).map f := by
  induction rs with
  | nil => rfl
  | cons x t ih =>
    simp only [List.map_cons, List.filter_cons, hq x]
    by_cases h : q x = true
    · simp [h, ih]
    · simp [h, ih]

/-- The upsert leaves exactly one row for the targeted (project, user) pair,
holding the new value, provided the table respected the uniqueness constraint
for that pair. -/
theorem upsert_pair_spec (pid uid : Nat) (v : Int) (rs : List Rating)
    (hdup : (rs.filter (fun r => r.project == pid && r.user == uid)).length ≤ 1) :
    (update_or_create_rating pid uid v rs).filter
      (fun r => r.project == pid && r.user == uid) = [⟨pid, uid, v⟩] := by
  unfold update_or_create_rating
  by_cases hany : rs.any (fun r => r.project == pid && r.user == uid) = true
  · rw [if_pos hany]
    rw [filter_map_pred_eq (fun r => r.project == pid && r.user == uid)
      (fun r => if r.project == pid && r.user == uid then { r with value := v } else r)
      (by
        intro x
        by_cases h : (x.project == pid && x.user == uid) = true <;> simp [h])]
    have hne : rs.filter (fun r => r.project == pid && r.user == uid) ≠ [] := by
      intro hnil
      rcases List.any_eq_true.mp hany with ⟨x, hx, hpx⟩
      have hmem : x ∈ rs.filter (fun r => r.project == pid && r.user == uid) :=
        List.mem_filter.mpr ⟨hx, hpx⟩
      rw [hnil] at hmem
      exact List.not_mem_nil x hmem
    obtain ⟨x0, hx0⟩ :=
      List.length_eq_one.mp (le_antisymm hdup (List.length_pos.mpr hne))
    have hmem : x0 ∈ rs.filter (fun r => r.project == pid && r.user == uid) := by
      rw [hx0]; exact List.mem_singleton_self x0
    have hpred := (List.mem_filter.mp hmem).2
    have hpu : x0.project = pid ∧ x0.user = uid := by
      have h := hpred
      simp only [Bool.and_eq_true, beq_iff_eq] at h
      exact h
    have hp : x0.project = pid := hpu.1
    have hu : x0.user = uid := hpu.2
    rw [hx0]
    simp [hpred, hp, hu]
  · rw [if_neg hany]
    have hnone : ∀ x ∈ rs, ¬ (x.project == pid && x.user == uid) = true := by
      intro x hx hpx
      exact hany (List.any_eq_true.mpr ⟨x, hx, hpx⟩)
    rw [List.filter_append, List.filter_eq_nil_iff.mpr hnone]
    simp

/-- The upsert preserves the at-most-one-row-per-pair constraint. -/
theorem upsert_at_most_one (pid uid : Nat) (v : Int) (rs : List Rating)
    (hdup : at_most_one_per_pair rs) :
    at_most_one_per_pair (update_or_create_rating pid uid v rs) := by
  intro pid' uid'
  by_cases hkey : pid' = pid ∧ uid' = uid
  · obtain ⟨rfl, rfl⟩ := hkey
    rw [upsert_pair_spec pid' uid' v rs (hdup pid' uid')]
    simp
  · unfold update_or_create_rating
    by_cases hany : rs.any (fun r => r.project == pid && r.user == uid) = true
    · rw [if_pos hany]
      rw [filter_map_pred_eq (fun r => r.project == pid' && r.user == uid')
        (fun r => if r.project == pid && r.user == uid then { r with value := v } else r)
        (by
          intro x
          by_cases h : (x.project == pid && x.user == uid) = true <;> simp [h])]
      rw [List.length_map]
      exact hdup pid' uid'
    · rw [if_neg hany]
      rw [List.filter_append]
      have hnew : ((⟨pid, uid, v⟩ : Rating).project == pid'
          && (⟨pid, uid, v⟩ : Rating).user == uid') = false := by
        simp only [Bool.eq_false_iff, Ne, Bool.and_eq_true, beq_iff_eq]
        intro hc
        exact hkey ⟨hc.1.symm, hc.2.symm⟩
      have hsingle : List.filter (fun r => r.project == pid' && r.user == uid')
          [(⟨pid, uid, v⟩ : Rating)] = [] := by
        simp [List.filter_cons, hnew]
      rw [hsingle, List.append_nil]
      exact hdup pid' uid'

/-- Claim C6: with a valid value and a table respecting the uniqueness
constraint, the rate action succeeds, leaves exactly one rating row for the
(project, user) pair — holding the new value — and keeps the constraint. -/
theorem c6_rate_upsert (uid : Nat) (v : Int) (s : St)
    (hdup : at_most_one_per_pair s.ratings) (h1 : 1 ≤ v) (h5 : v ≤ 5) :
    (api_rate uid (some v) s).1 = none
    ∧ (api_rate uid (some v) s).2.ratings.filter
        (fun r => r.project == s.project.id && r.user == uid) = [⟨s.project.id, uid, v⟩]
    ∧ at_most_one_per_pair (api_rate uid (some v) s).2.ratings := by
  have hv0 : ¬ v = 0 := by omega
  have hrange : 1 ≤ v ∧ v ≤ 5 := ⟨h1, h5⟩
  have hred : api_rate uid (some v) s
      = (none, { s with
          ratings := update_or_create_rating s.project.id uid v s.ratings,
          project := update_rating_summary s.project
            (update_or_create_rating s.project.id uid v s.ratings) }) := by
    simp [api_rate, hv0, hrange]
  rw [hred]
  exact ⟨rfl, upsert_pair_spec s.project.id uid v s.ratings (hdup s.project.id uid),
    upsert_at_most_one s.project.id uid v s.ratings hdup⟩

/-- Witness for C6: user 7 rated `projA` with 3 (state `st6`), then submits 5;
exactly one rating row remains and it holds the value 5. -/
theorem c6_rate_upsert_witness :
    (api_rate 7 (some 5) st6).2.ratings.filter
      (fun r => r.project == st6.project.id && r.user == 7) = [⟨st6.project.id, 7, 5⟩]
    ∧ (api_rate 7 (some 5) st6).2.ratings = [⟨1, 7, 5⟩] := by
  refine ⟨(c6_rate_upsert 7 5 st6 ?_ (by norm_num) (by norm_num)).2.1, rfl⟩
  intro pid uid
  exact le_trans (List.length_filter_le _ _) (by simp [st6, stA])

/-- Claim C8: a project report by a reporter who already reported this project
fails with the duplicate error and inserts nothing; a first report inserts
exactly one row with status `'pending'`; after a successful report, a second
attempt by the same reporter fails and exactly one row for the pair persists.
The same duplicate contract holds for comment reports, scoped to
(comment, reporter). -/
theorem c8_report_dedup (uid : Nat) (t r t2 r2 : String) (cid : Nat) (s : St) :
    ((∃ pr ∈ s.projectReports, pr.project = s.project.id ∧ pr.reporter = uid) →
        report_project uid t r s = (some .alreadyReported, s))
    ∧ ((¬ ∃ pr ∈ s.projectReports, pr.project = s.project.id ∧ pr.reporter = uid) →
        report_project uid t r s
          = (none, { s with projectReports :=
              s.projectReports ++ [⟨s.project.id, uid, t, r, "pending"⟩] }))
    ∧ ((¬ ∃ pr ∈ s.projectReports, pr.project = s.project.id ∧ pr.reporter = uid) →
        report_project uid t2 r2 (report_project uid t r s).2
          = (some .alreadyReported, (report_project uid t r s).2)
        ∧ (report_project uid t r s).2.projectReports.filter
            (fun pr => pr.project == s.project.id && pr.reporter == uid)
          = [⟨s.project.id, uid, t, r, "pending"⟩])
    ∧ (cid ≠ 0 → (∃ cm ∈ s.comments, cm.id = cid ∧ cm.project = s.project.id) →
        (∃ cr ∈ s.commentReports, cr.comment = cid ∧ cr.reporter = uid) →
        report_comment uid (some cid) t r s = (some .alreadyReported, s))
    ∧ (cid ≠ 0 → (∃ cm ∈ s.comments, cm.id = cid ∧ cm.project = s.project.id) →
        (¬ ∃ cr ∈ s.commentReports, cr.comment = cid ∧ cr.reporter = uid) →
        report_comment uid (some cid) t r s
          = (none, { s with commentReports :=
              s.commentReports ++ [⟨cid, uid, t, r, "pending"⟩] })) := by
  have hbrP : ∀ (l : List ProjectReport),
      (l.any (fun pr => pr.project == s.project.id && pr.reporter == uid)) = true ↔
        (∃ pr ∈ l, pr.project = s.project.id ∧ pr.reporter = uid) := by
    intro l
    simp [List.any_eq_true]
  have hbrC : ∀ (l : List CommentReport),
      (l.any (fun cr => cr.comment == cid && cr.reporter == uid)) = true ↔
        (∃ cr ∈ l, cr.comment = cid ∧ cr.reporter = uid) := by
    intro l
    simp [List.any_eq_true]
  refine ⟨?_, ?_, ?_, ?_, ?_⟩
  · intro hx
    unfold report_project
    rw [if_pos ((hbrP s.projectReports).mpr hx)]
  · intro hx
    unfold report_project
    rw [if_neg (fun hc => hx ((hbrP s.projectReports).mp hc))]
  · intro hx
    have hfirst : report_project uid t r s
        = (none, { s with projectReports :=
            s.projectReports ++ [⟨s.project.id, uid, t, r, "pending"⟩] }) := by
      unfold report_project
      rw [if_neg (fun hc => hx ((hbrP s.projectReports).mp hc))]
    constructor
    · rw [hfirst]
      unfold report_project
      rw [if_pos ((hbrP _).mpr ⟨⟨s.project.id, uid, t, r, "pending"⟩,
        List.mem_append_right _ (List.mem_singleton_self _), rfl, rfl⟩)]
    · rw [hfirst]
      have hnone : ∀ x ∈ s.projectReports,
          ¬ (x.project == s.project.id && x.reporter == uid) = true := by
        intro x hmem hpx
        exact hx ((hbrP s.projectReports).mp (List.any_eq_true.mpr ⟨x, hmem, hpx⟩))
      rw [List.filter_append, List.filter_eq_nil_iff.mpr hnone]
      simp
  · intro hcid hcm hdup
    simp only [report_comment]
    rw [if_neg hcid]
    have hanyc : (s.comments.any (fun cm => cm.id == cid && cm.project == s.project.id))
        = true := by
      rcases hcm with ⟨cm, hmem, h1, h2⟩
      exact List.any_eq_true.mpr ⟨cm, hmem, by simp [h1, h2]⟩
    rw [hanyc]
    simp only [Bool.not_true, Bool.false_eq_true, if_false]
    rw [if_pos ((hbrC s.commentReports).mpr hdup)]
  · intro hcid hcm hdup
    simp only [report_comment]
    rw [if_neg hcid]
    have hanyc : (s.comments.any (fun cm => cm.id == cid && cm.project == s.project.id))
        = true := by
      rcases hcm with ⟨cm, hmem, h1, h2⟩
      exact List.any_eq_true.mpr ⟨cm, hmem, by simp [h1, h2]⟩
    rw [hanyc]
    simp only [Bool.not_true, Bool.false_eq_true, if_false]
    rw [if_neg (fun hc => hdup ((hbrC s.commentReports).mp hc))]

/-- Witness for C8: user 9 reports `projA` (no prior reports): the second,
identical attempt fails with the duplicate error and exactly one pending row
for (project 1, reporter 9) persists. -/
theorem c8_report_dedup_witness :
    report_project 9 "spam" "again" (report_project 9 "spam" "looks fake" stA).2
      = (some .alreadyReported, (report_project 9 "spam" "looks fake" stA).2)
    ∧ (report_project 9 "spam" "looks fake" stA).2.projectReports.filter
        (fun pr => pr.project == stA.project.id && pr.reporter == 9)
      = [⟨stA.project.id, 9, "spam", "looks fake", "pending"⟩] :=
  (c8_report_dedup 9 "spam" "looks fake" "spam" "again" 1 stA).2.2.1 (by simp [stA])

end Crowdfund
